import Mathlib

/-!
Verification of the simple-import pipeline (dc-import, `simple/`).

Shallow embedding of the code under `simple/util/filesystem.py`,
`simple/stats/config.py`, `simple/stats/mcf_importer.py` and
`simple/stats/runner.py`, together with theorems settling the frozen
claims about per-file configuration resolution, glob matching, MCF
triple conversion, importer reporting and the orchestrator's
file-processing order.

Conventions of the embedding:
* Python dicts become association lists (`List (String × _)`); JSON
  objects preserve declaration order, as Python dicts preserve
  insertion order, so "declaration order" is list order.
* Python functions that `raise` become `Except String _`.
* Effectful methods are embedded as pure functions returning the list
  of the externally visible steps they perform, in order.
-/

namespace DCImport

/-! ### Glob matching (`util/filesystem.py`, `File.match`)

`File.match` builds a Python regex from the pattern: each `/`-separated
segment is mapped to `.*` (for `**`), to `[^\/]*` (for `*`), or to the
segment with `.` escaped and each `*` replaced by `[^\/]*`; segments are
re-joined with `\/`.  The resulting regex is a concatenation of three
kinds of atoms, which we embed directly.  (The source escapes only `.`;
patterns are assumed to contain no other regex metacharacter, which
holds for every pattern in the repository's configs and tests.) -/

/-- An atom of the regex `File.match` constructs: a literal character,
`[^\/]*` (a `*` wildcard, never crossing `/`), or `.*` (from `**`). -/
inductive GlobAtom where
  | lit (c : Char)
  | starSeg
  | starAll
deriving DecidableEq

/-- Acceptance of a list of regex atoms against an initial portion of the
input: `atomsAccept atoms cs` is true iff some prefix of `cs` matches the
concatenation of `atoms` (Python `re.match` anchors only at the start and
does not require consuming the whole input). -/
def atomsAccept : List GlobAtom → List Char → Bool
  | [], _ => true
  | GlobAtom.lit c :: r, cs =>
    match cs with
    | [] => false
    | x :: xs => c == x && atomsAccept r xs
  | GlobAtom.starSeg :: r, cs =>
    (List.range (cs.length + 1)).any fun i =>
      ((cs.take i).all fun ch => ch != '/') && atomsAccept r (cs.drop i)
  | GlobAtom.starAll :: r, cs =>
    (List.range (cs.length + 1)).any fun i => atomsAccept r (cs.drop i)

/-- Python `re.match(regex, path) is not None`: the regex matches at the
beginning of the path (a prefix suffices). -/
def regexMatchAtStart (atoms : List GlobAtom) (cs : List Char) : Bool :=
  atomsAccept atoms cs

/-- Python `re.search(regex, path) is not None`: the regex matches
starting at any position of the path. -/
def regexSearch (atoms : List GlobAtom) (cs : List Char) : Bool :=
  (List.range (cs.length + 1)).any fun i => atomsAccept atoms (cs.drop i)

/-- Python `str.split("/")` (non-empty separator): `"".split("/") = [""]`,
`"a/b".split("/") = ["a", "b"]`. -/
def splitOnSlash : List Char → List (List Char)
  | [] => [[]]
  | c :: cs =>
    let rest := splitOnSlash cs
    if c = '/' then [] :: rest
    else
      match rest with
      | seg :: segs => (c :: seg) :: segs
      | [] => [[c]]

/-- One non-`**`, non-`*` segment of the pattern: `.` was escaped to a
literal and each `*` becomes `[^\/]*` (`segment.replace("*", r"[^\/]*")`). -/
def compileSegment (seg : List Char) : List GlobAtom :=
  seg.map fun c => if c = '*' then GlobAtom.starSeg else GlobAtom.lit c

/-- The regex `File.match` builds from a pattern containing at least one
`*`: split on `/`, map `**` to `.*`, `*` to `[^\/]*`, other segments
characterwise, and re-join with the literal `\/`. -/
def compilePattern (pattern : String) : List GlobAtom :=
  let segs := splitOnSlash pattern.data
  List.intercalate [GlobAtom.lit '/']
    (segs.map fun seg =>
      if seg = ['*', '*'] then [GlobAtom.starAll]
      else if seg = ['*'] then [GlobAtom.starSeg]
      else compileSegment seg)

/-- Python `pattern.startswith("/")`. -/
def startsWithSlash (s : String) : Bool :=
  match s.data with
  | [] => false
  | c :: _ => c = '/'

/-- A file as seen by `util/filesystem.py`: `path` is the path relative
to the enclosing store, `parentPath` the store's own path (used only by
`full_path`). -/
structure FileRef where
  path : String
  parentPath : String := ""
deriving DecidableEq

/-- `File.name`: `fs.path.basename(self.path)` — the last `/`-separated
component of the relative path. -/
def FileRef.name (f : FileRef) : String :=
  String.mk ((splitOnSlash f.path.data).getLastD [])

/-- `File.full_path`: `fspath.join(self.parent_path, self.path)`. -/
def FileRef.full_path (f : FileRef) : String :=
  if f.parentPath = "" then f.path else f.parentPath ++ "/" ++ f.path

/-- The matching algorithm of `File.match(self, pattern: str)`, i.e. its
body applied to the declared string parameter.  A pattern not starting
with `/` is unanchored (`allow_partial_match` in the source): it may
additionally match the bare file name (no-wildcard case) or anywhere in
the path (`re.search`).  A pattern with no `*` is compared for string
equality; otherwise the compiled regex is tried with `re.search` (if
unanchored) and `re.match`.  NOTE: no caller in the repository actually
reaches this algorithm — every call site wraps the pattern in a
one-element list, which raises; see `matchPatterns`. -/
def FileRef.matchPattern (f : FileRef) (pattern : String) : Bool :=
  let allowUnanchored := !startsWithSlash pattern
  if pattern.data.count '*' = 0 then
    (allowUnanchored && f.name == pattern) || f.path == pattern
  else
    let atoms := compilePattern pattern
    (allowUnanchored && regexSearch atoms f.path.data) ||
      regexMatchAtStart atoms f.path.data

/-- The Python error message of the `AttributeError` raised by every
in-repo call of `File.match`: callers pass the pattern wrapped in a
one-element list (`input_file.match([input_file_pattern])` in
config.py, `file.match([file_name])` and `input_file.match(["*.csv"])`
in runner.py), while `File.match(self, pattern: str)` immediately
evaluates `pattern.startswith("/")` — and a Python list has no
`startswith` attribute. -/
def attributeErrorMsg : String :=
  "'list' object has no attribute 'startswith'"

/-- A call `f.match(patterns)` with a list argument, as every caller in
the repository performs it: the first statement of `File.match`
(`allow_partial_match = not pattern.startswith("/")`, filesystem.py:64)
raises `AttributeError` before anything else runs, whatever the list
holds, so the call never returns a boolean. -/
def matchPatterns (_f : FileRef) (_patterns : List String) :
    Except String Bool :=
  Except.error attributeErrorMsg

/-! ### Per-file configuration (`stats/config.py`) -/

/-- The per-file settings object of one `inputFiles` entry.  The claims
inspect only string-valued fields and emptiness, so values are strings. -/
abbrev Settings := List (String × String)

/-- Python `dict.get(key)` on an association list (first binding wins;
JSON object keys are unique). -/
def assocGet {α : Type} (d : List (String × α)) (k : String) : Option α :=
  (d.find? fun kv => kv.1 == k).map fun kv => kv.2

/-- The part of the parsed `config.json` the claims depend on: the
`inputFiles` map, in declaration order. -/
structure Config where
  inputFiles : List (String × Settings)
deriving DecidableEq

/-- The loop of `Config._find_first_matching_config_key` over the
declared `inputFiles` keys: each iteration calls
`input_file.match([input_file_pattern])`, whose list-valued argument
raises `AttributeError`; a matching key would be returned, a
non-matching one skipped, but in fact the loop errors on its first
iteration, and only an empty key set reaches the final `return None`. -/
def findFirstLoop (f : FileRef) : List String → Except String (Option String)
  | [] => Except.ok none
  | key :: rest =>
    match matchPatterns f [key] with
    | Except.error e => Except.error e
    | Except.ok true => Except.ok (some key)
    | Except.ok false => findFirstLoop f rest

/-- `Config._find_first_matching_config_key`: walk the declared
`inputFiles` keys in order. -/
def findFirstMatchingConfigKey (cfg : Config) (f : FileRef) :
    Except String (Option String) :=
  findFirstLoop f (cfg.inputFiles.map Prod.fst)

/-- `Config._per_file_config`: exact lookup of the file's base name; a
non-empty result (Python truthiness) is returned directly.  Otherwise
the first-matching-key search runs — raising `AttributeError` whenever
at least one key is declared — and, were it to complete, the matched
key's settings (or `{}` with no match) would be returned.  The source
memoizes the matched key per `full_path` in `_config_key_by_full_path`;
the config is immutable after construction, so the memo never changes
any query's result and the embedding is the cache-free function. -/
def perFileConfig (cfg : Config) (f : FileRef) : Except String Settings :=
  let input_file_config := (assocGet cfg.inputFiles f.name).getD []
  if input_file_config ≠ [] then Except.ok input_file_config
  else
    match findFirstMatchingConfigKey cfg f with
    | Except.error e => Except.error e
    | Except.ok (some key) => Except.ok ((assocGet cfg.inputFiles key).getD [])
    | Except.ok none => Except.ok []

/-- Modelled from the spec: the `ImportType` enum of `stats/data.py`
(not under `src/`) — a closed string enum with members OBSERVATIONS,
EVENTS and ENTITIES whose values are the lowercase strings used in
`config.json` (`"observations"`, `"events"`, `"entities"`). -/
inductive ImportType where
  | OBSERVATIONS
  | EVENTS
  | ENTITIES
deriving DecidableEq

/-- Membership test / constructor of the string enum: `some t` iff the
string is the value of member `t` (`ImportType(s)` in Python);
`none` corresponds to `s not in iter(ImportType)`. -/
def parseImportType (s : String) : Option ImportType :=
  if s == "observations" then some ImportType.OBSERVATIONS
  else if s == "events" then some ImportType.EVENTS
  else if s == "entities" then some ImportType.ENTITIES
  else none

/-- The `ValueError` message of `Config.import_type` for a value outside
the enum. -/
def unsupportedImportTypeMsg (s fp : String) : String :=
  s!"Unsupported import type: {s} ({fp})"

/-- `Config.import_type`: resolve the per-file config (an exception
raised there propagates), then read its `importType` field; a falsy
value (absent or the empty string) defaults to OBSERVATIONS, a value
outside the enum raises `ValueError`. -/
def Config.importTypeOf (cfg : Config) (f : FileRef) : Except String ImportType :=
  match perFileConfig cfg f with
  | Except.error e => Except.error e
  | Except.ok pfc =>
    match assocGet pfc "importType" with
    | none => Except.ok ImportType.OBSERVATIONS
    | some s =>
      if s == "" then Except.ok ImportType.OBSERVATIONS
      else
        match parseImportType s with
        | some t => Except.ok t
        | none => Except.error (unsupportedImportTypeMsg s f.full_path)

/-! ### MCF triple conversion (`stats/mcf_importer.py`) -/

/-- One record produced by `kg_util.mcf_parser.mcf_to_triples` (an
external collaborator): `[subject_id, predicate, value, value_type]`. -/
structure ParserRow where
  subjectId : String
  predicate : String
  value : String
  valueType : String
deriving DecidableEq

/-- Modelled from the spec: the `Triple` record of `stats/data.py` (not
under `src/`) — subject id, predicate, and an optional object id or
object value, both defaulting to unset. -/
structure Triple where
  subject_id : String
  predicate : String
  object_id : Option String := none
  object_value : Option String := none
deriving DecidableEq

/-- `_MAX_CHARS = 2**16 - 1`: the max length of a node value. -/
def MAX_CHARS : Nat := 2 ^ 16 - 1

/-- The error message of `_to_triple` for an over-long value. -/
def tooLongMsg (p s : String) (n : Nat) : String :=
  let m := MAX_CHARS
  s!"Value of property {p} in node {s} too long (got: {n}, max: {m})"

/-- The error message of `_to_triple` for a subject with no dcid. -/
def dcidErrorMsg (s : String) : String :=
  s!"dcid not specified for node: {s}"

/-- Pass 1 of `_mcf_to_triples`, dcid half: every record whose predicate
is `dcid` registers `local2dcid[subject_id] = value`.  The dict is kept
as the list of assignments in order; a later assignment overwrites. -/
def dcidAssignments (rows : List ParserRow) : List (String × String) :=
  (rows.filter fun r => r.predicate == "dcid").map fun r => (r.subjectId, r.value)

/-- Lookup in the `local2dcid` dict: the last assignment to a key wins
(Python dict update semantics). -/
def lookupDcid (assignments : List (String × String)) (k : String) : Option String :=
  (assignments.reverse.find? fun kv => kv.1 == k).map fun kv => kv.2

/-- Pass 1 of `_mcf_to_triples`, buffering half: every record whose
predicate is not `dcid` is appended to `parser_triples`. -/
def bufferedRows (rows : List ParserRow) : List ParserRow :=
  rows.filter fun r => !(r.predicate == "dcid")

/-- `_to_triple(parser_triple, local2dcid)`: reject a value longer than
`_MAX_CHARS`; resolve the subject's local id through `local2dcid`,
failing when it was never assigned a dcid; classify the value as
`object_id` when the value type is `ID`, else as `object_value`. -/
def toTriple (row : ParserRow) (local2dcid : List (String × String)) :
    Except String Triple :=
  if row.value.length > MAX_CHARS then
    Except.error (tooLongMsg row.predicate row.subjectId row.value.length)
  else
    match lookupDcid local2dcid row.subjectId with
    | none => Except.error (dcidErrorMsg row.subjectId)
    | some dcid =>
      if row.valueType == "ID" then
        Except.ok { subject_id := dcid, predicate := row.predicate,
                    object_id := some row.value }
      else
        Except.ok { subject_id := dcid, predicate := row.predicate,
                    object_value := some row.value }

/-- Pass 2 of `_mcf_to_triples`:
`list(map(lambda x: _to_triple(x, local2dcid), parser_triples))` —
left-to-right, the first raised error aborts the whole conversion. -/
def mapToTriples (rows : List ParserRow) (local2dcid : List (String × String)) :
    Except String (List Triple) :=
  match rows with
  | [] => Except.ok []
  | r :: rs =>
    match toTriple r local2dcid with
    | Except.error e => Except.error e
    | Except.ok t =>
      match mapToTriples rs local2dcid with
      | Except.error e => Except.error e
      | Except.ok ts => Except.ok (t :: ts)

/-- `McfImporter._mcf_to_triples`, with the parser's record stream as
input: pass 1 splits off the dcid assignments and buffers the rest,
pass 2 converts the buffered records. -/
def mcfToTriples (rows : List ParserRow) : Except String (List Triple) :=
  mapToTriples (bufferedRows rows) (dcidAssignments rows)

/-! ### `McfImporter.do_import` (`stats/mcf_importer.py`) -/

/-- The externally visible steps of `McfImporter.do_import`, in order.
`readInput` is the read of the input file (`self.input_file.read()` in
main-DC mode, `self.input_file.read_string_io()` inside
`_mcf_to_triples` otherwise). -/
inductive ImportEvent where
  | reportStarted
  | readInput
  | writeOutput
  | insertTriples (count : Nat)
  | reportSuccess
  | reportFailure (msg : String)
deriving DecidableEq

/-- True for the two terminal reporter calls, `report_success` and
`report_failure`. -/
def isTerminalReport : ImportEvent → Bool
  | ImportEvent.reportSuccess => true
  | ImportEvent.reportFailure _ => true
  | _ => false

/-- `McfImporter.do_import`: report started; in main-DC mode copy the
file over, otherwise convert to triples and insert them in the DB; report
success, or — on an exception — report the failure with the exception's
message and re-raise it.  The fallible step in scope is the conversion;
file and DB access are external collaborators modelled as non-failing.
Returns the event trace and the propagated outcome. -/
def doImport (isMainDc : Bool) (rows : List ParserRow) :
    List ImportEvent × Except String Unit :=
  if isMainDc then
    ([ImportEvent.reportStarted, ImportEvent.readInput,
      ImportEvent.writeOutput, ImportEvent.reportSuccess], Except.ok ())
  else
    match mcfToTriples rows with
    | Except.ok triples =>
      ([ImportEvent.reportStarted, ImportEvent.readInput,
        ImportEvent.insertTriples triples.length, ImportEvent.reportSuccess],
       Except.ok ())
    | Except.error e =>
      ([ImportEvent.reportStarted, ImportEvent.readInput,
        ImportEvent.reportFailure e], Except.error e)

/-! ### The runner (`stats/runner.py`) -/

/-- The `RunMode` string enum. -/
inductive RunMode where
  | CUSTOM_DC
  | SCHEMA_UPDATE
  | MAIN_DC
deriving DecidableEq

/-- The externally visible steps of `Runner._generate_svg_hierarchy`. -/
inductive SvgStep where
  | selectSvTriples
  | logSkipNoTriples
  | loadVerticalSpecs
  | generateHierarchy
  | insertSvgTriples
deriving DecidableEq

/-- `Runner._generate_svg_hierarchy`: return immediately in main-DC mode
or when hierarchy generation is disabled; otherwise read the SV triples
from the DB, log (without returning) when there are none, load vertical
specs when a vertical-specs special file was found, then generate the
hierarchy and insert the generated SVG triples.  Inputs are the run
mode, `config.generate_hierarchy()`, the SV triples the DB returns, and
whether a vertical-specs file is present. -/
def generateSvgHierarchy (mode : RunMode) (generateHierarchyEnabled : Bool)
    (svTriples : List Triple) (hasVerticalSpecsFile : Bool) : List SvgStep :=
  if mode = RunMode.MAIN_DC then []
  else if !generateHierarchyEnabled then []
  else
    [SvgStep.selectSvTriples]
      ++ (if svTriples.isEmpty then [SvgStep.logSkipNoTriples] else [])
      ++ (if hasVerticalSpecsFile then [SvgStep.loadVerticalSpecs] else [])
      ++ [SvgStep.generateHierarchy, SvgStep.insertSvgTriples]

/-- The externally visible steps of `Runner._run_all_data_imports`. -/
inductive RunEvent where
  | reportRunStarted (importFiles : List FileRef)
  | importCsv (f : FileRef)
  | importMcf (f : FileRef)
deriving DecidableEq

/-- The comparator of `input_csv_files.sort(key=lambda f: f.name())`:
ascending by file name. -/
def nameLe (a b : FileRef) : Bool :=
  decide (a.name ≤ b.name)

/-- The classification loop of `_run_all_data_imports`: for each
enumerated file, test `input_file.match(["*.csv"])` and
`input_file.match(["*.mcf"])`, appending the file to the matching
group(s).  The list-valued match argument raises `AttributeError` at
the first file, so only an empty enumeration completes.  (The preceding
`_check_if_special_file` call performs `file.match([file_name])` per
configured special file name — the same error even earlier; the model
takes no special files configured, where it performs no match call.) -/
def classifyLoop : List FileRef → Except String (List FileRef × List FileRef)
  | [] => Except.ok ([], [])
  | f :: rest =>
    match matchPatterns f ["*.csv"] with
    | Except.error e => Except.error e
    | Except.ok isCsv =>
      match matchPatterns f ["*.mcf"] with
      | Except.error e => Except.error e
      | Except.ok isMcf =>
        match classifyLoop rest with
        | Except.error e => Except.error e
        | Except.ok (csvs, mcfs) =>
          Except.ok ((if isCsv then [f] else []) ++ csvs,
                     (if isMcf then [f] else []) ++ mcfs)

/-- `Runner._run_all_data_imports`, from the enumerated input files:
classify into CSV and MCF groups, sort each group by file name
ascending (Python's stable `list.sort`, embedded as the stable merge
sort), report the run as started with the concatenated ordered list,
then import every CSV file and afterwards every MCF file.  An exception
in classification (raised at the first file of any non-empty
enumeration) escapes before anything is reported or imported.  Returns
the event trace and the outcome. -/
def runAllDataImports (inputFiles : List FileRef) :
    List RunEvent × Except String Unit :=
  match classifyLoop inputFiles with
  | Except.error e => ([], Except.error e)
  | Except.ok (inputCsvFiles, inputMcfFiles) =>
    let sortedCsvFiles := inputCsvFiles.mergeSort nameLe
    let sortedMcfFiles := inputMcfFiles.mergeSort nameLe
    (RunEvent.reportRunStarted (sortedCsvFiles ++ sortedMcfFiles)
      :: (sortedCsvFiles.map RunEvent.importCsv
          ++ sortedMcfFiles.map RunEvent.importMcf), Except.ok ())

/-! ### Concrete inputs used by witnesses and counterexamples -/

/-- A file named `foo.csv` at the root of its store. -/
def fooFile : FileRef := { path := "foo.csv" }

/-- A file at relative path `path/to/foo.csv`. -/
def fooInSubdir : FileRef := { path := "path/to/foo.csv" }

/-- A file at relative path `other/foo.csv`. -/
def otherFooFile : FileRef := { path := "other/foo.csv" }

/-- A file named `foo1.csv` at the root of its store. -/
def foo1File : FileRef := { path := "foo1.csv" }

/-- A config declaring a glob key before an exact key whose settings are
empty. -/
def c1Config : Config :=
  { inputFiles := [("*.csv", [("x", "y")]), ("foo.csv", [])] }

/-- A config whose exact key for `foo.csv` has non-empty settings but is
declared after a matching glob key. -/
def c1wConfig : Config :=
  { inputFiles := [("*.csv", [("x", "y")]), ("foo.csv", [("a", "b")])] }

/-- A config with a non-matching key declared before a glob key. -/
def c2Config : Config :=
  { inputFiles := [("bar.csv", [("z", "w")]), ("path/to/*.csv", [("x", "y")])] }

/-- Same entries as `c1Config`, for the C10 witness. -/
def c10Config : Config :=
  { inputFiles := [("*.csv", [("x", "y")]), ("foo.csv", [])] }

/-- A config assigning the unrecognized import type `eVeNtS`
(case-sensitive mismatch). -/
def c7Config : Config :=
  { inputFiles := [("invalid_import_type.csv", [("importType", "eVeNtS")]),
                   ("events.csv", [("importType", "events")])] }

/-- The file whose `c7Config` entry carries the invalid import type. -/
def invalidImportTypeFile : FileRef := { path := "invalid_import_type.csv" }

/-- A config whose only key is a glob pattern, so any other file is
resolved through the glob branch. -/
def c7CrashConfig : Config :=
  { inputFiles := [("a*.csv", [("importType", "events")])] }

/-- A file with no exact entry in `c7CrashConfig`. -/
def bFile : FileRef := { path := "b.csv" }

/-- A string one character longer than `_MAX_CHARS`. -/
def longValue : String :=
  String.mk (List.replicate 65536 'a')

/-- A single MCF record whose subject has no dcid and whose value is
over-long: both error conditions of `_to_triple` at once. -/
def c4Row : ParserRow :=
  { subjectId := "n2", predicate := "q", value := longValue, valueType := "" }

/-- MCF records where node `n1` gets a dcid and node `n2` is referenced
as a subject but never assigned one. -/
def c4wRows : List ParserRow :=
  [{ subjectId := "n1", predicate := "dcid", value := "dc1", valueType := "" },
   { subjectId := "n2", predicate := "q", value := "v", valueType := "" }]

/-- An over-long MCF record for the C5 witness. -/
def c5Row : ParserRow :=
  { subjectId := "node1", predicate := "p", value := longValue, valueType := "" }

/-- MCF records whose conversion fails (no dcid for `n9`), for the C8
witness. -/
def c8FailRows : List ParserRow :=
  [{ subjectId := "n9", predicate := "p", value := "v", valueType := "" }]

/-- A literal-valued MCF record for the C6 witness. -/
def c6Row : ParserRow :=
  { subjectId := "n1", predicate := "p", value := "v", valueType := "" }

/-- A dcid map assigning `dc1` to `n1`. -/
def c6Map : List (String × String) := [("n1", "dc1")]

/-- The triple `_to_triple` produces from `c6Row` under `c6Map`. -/
def c6Triple : Triple :=
  { subject_id := "dc1", predicate := "p", object_value := some "v" }

/-! ### Helper lemmas -/

/-- The first-matching-key search raises the `AttributeError` whenever
at least one `inputFiles` key is declared: the first loop iteration
calls `File.match` with a one-element list. -/
theorem findFirstMatchingConfigKey_error (cfg : Config) (f : FileRef)
    (hne : cfg.inputFiles ≠ []) :
    findFirstMatchingConfigKey cfg f = Except.error attributeErrorMsg := by
  cases hcfg : cfg.inputFiles with
  | nil => exact absurd hcfg hne
  | cons kv rest =>
    simp [findFirstMatchingConfigKey, hcfg, findFirstLoop, matchPatterns]

/-- `longValue` is one character longer than `_MAX_CHARS`. -/
theorem longValue_length : longValue.length = 65536 := by
  show (List.replicate 65536 'a').length = 65536
  exact List.length_replicate _ _

/-- `_to_triple` raises the length error whenever the value is too
long. -/
theorem toTriple_error_length (x : ParserRow) (m : List (String × String))
    (h : x.value.length > MAX_CHARS) :
    toTriple x m = Except.error (tooLongMsg x.predicate x.subjectId x.value.length) := by
  simp only [toTriple]
  rw [if_pos h]

/-- `_to_triple` raises the dcid error when the value is within bounds
and the subject has no dcid. -/
theorem toTriple_error_dcid (x : ParserRow) (m : List (String × String))
    (hlen : x.value.length ≤ MAX_CHARS)
    (hlu : lookupDcid m x.subjectId = none) :
    toTriple x m = Except.error (dcidErrorMsg x.subjectId) := by
  simp only [toTriple, hlu]
  rw [if_neg (by omega)]

/-- `_to_triple` succeeds when the value is within bounds and the
subject has a dcid. -/
theorem toTriple_ok_of_mapped (x : ParserRow) (m : List (String × String))
    (d : String) (hlen : x.value.length ≤ MAX_CHARS)
    (hlu : lookupDcid m x.subjectId = some d) :
    ∃ t, toTriple x m = Except.ok t := by
  simp only [toTriple, hlu]
  rw [if_neg (by omega)]
  cases h : x.valueType == "ID" <;> simp [h]

/-- Inversion of a successful `_to_triple`: the value was within bounds,
the subject resolved through the dcid map to the triple's subject, and
the value landed in `object_id` exactly for value type `ID`,
in `object_value` otherwise. -/
theorem toTriple_ok_inv (x : ParserRow) (m : List (String × String))
    (t : Triple) (h : toTriple x m = Except.ok t) :
    x.value.length ≤ MAX_CHARS ∧
    lookupDcid m x.subjectId = some t.subject_id ∧
    ((x.valueType == "ID") = true →
      t.object_id = some x.value ∧ t.object_value = none) ∧
    ((x.valueType == "ID") = false →
      t.object_id = none ∧ t.object_value = some x.value) := by
  simp only [toTriple] at h
  split at h
  next hlen => exact absurd h (by simp)
  next hlen =>
    split at h
    next heq => exact absurd h (by simp)
    next d heq =>
      split at h
      next hvt =>
        injection h with h'
        subst h'
        refine ⟨by omega, by rw [heq], fun _ => ⟨rfl, rfl⟩, ?_⟩
        intro hc
        rw [hvt] at hc
        exact absurd hc (by simp)
      next hvt =>
        injection h with h'
        subst h'
        refine ⟨by omega, by rw [heq], ?_, fun _ => ⟨rfl, rfl⟩⟩
        intro hc
        exact absurd hc hvt

/-- Pass 2 raises the dcid error for the first buffered record whose
subject is unmapped, provided no value is over-long. -/
theorem mapToTriples_error_of_unmapped (l : List ParserRow)
    (m : List (String × String)) (r : ParserRow)
    (hlen : ∀ x ∈ l, x.value.length ≤ MAX_CHARS)
    (hfind : l.find? (fun x => (lookupDcid m x.subjectId).isNone) = some r) :
    mapToTriples l m = Except.error (dcidErrorMsg r.subjectId) := by
  induction l with
  | nil => simp at hfind
  | cons x xs ih =>
    have hxlen : x.value.length ≤ MAX_CHARS := hlen x (by simp)
    cases hlu : lookupDcid m x.subjectId with
    | none =>
      rw [List.find?_cons_of_pos _ (by simp [hlu])] at hfind
      obtain rfl : x = r := Option.some_inj.mp hfind
      simp [mapToTriples, toTriple_error_dcid _ m hxlen hlu]
    | some d =>
      rw [List.find?_cons_of_neg _ (by simp [hlu])] at hfind
      have hrec := ih (fun y hy => hlen y (by simp [hy])) hfind
      obtain ⟨t, ht⟩ := toTriple_ok_of_mapped x m d hxlen hlu
      simp [mapToTriples, ht, hrec]

/-- A successful pass 2 resolves every buffered record's subject through
the dcid map to the corresponding triple's subject. -/
theorem mapToTriples_ok_forall₂ (l : List ParserRow)
    (m : List (String × String)) (ts : List Triple)
    (h : mapToTriples l m = Except.ok ts) :
    List.Forall₂ (fun (x : ParserRow) (t : Triple) =>
      lookupDcid m x.subjectId = some t.subject_id) l ts := by
  induction l generalizing ts with
  | nil =>
    simp only [mapToTriples] at h
    injection h with h'
    subst h'
    exact List.Forall₂.nil
  | cons x xs ih =>
    simp only [mapToTriples] at h
    cases ht : toTriple x m with
    | error e => rw [ht] at h; exact absurd h (by simp)
    | ok t =>
      rw [ht] at h
      cases hrest : mapToTriples xs m with
      | error e => rw [hrest] at h; exact absurd h (by simp)
      | ok ts' =>
        rw [hrest] at h
        injection h with h'
        subst h'
        exact List.Forall₂.cons (toTriple_ok_inv x m t ht).2.1 (ih ts' hrest)

/-! ### Claims -/

/-- C1 (amended): for every input file and configuration, if the
`inputFiles` map contains a key exactly equal to the file's base name
and that key's settings are non-empty, per-file config resolution
succeeds with that key's settings, winning over any glob-pattern key
regardless of the order in which keys are declared.  (The non-emptiness
proviso is forced by `C1_counterexample`: an exact entry with empty
settings is skipped and the glob search — which raises — proceeds.) -/
theorem C1_exact_match_wins_when_nonempty (cfg : Config) (f : FileRef)
    (s : Settings) (hlook : assocGet cfg.inputFiles f.name = some s)
    (hs : s ≠ []) : perFileConfig cfg f = Except.ok s := by
  simp [perFileConfig, hlook, hs]

/-- C1 counterexample: `foo.csv` appears as an exact key of `c1Config`
with empty settings, yet resolution does not return that key's
settings: it falls into the glob search over the declared keys, whose
first `match([pattern])` call raises `AttributeError`. -/
theorem C1_counterexample :
    assocGet c1Config.inputFiles fooFile.name = some [] ∧
    perFileConfig c1Config fooFile = Except.error attributeErrorMsg ∧
    perFileConfig c1Config fooFile ≠ Except.ok [] := by
  refine ⟨rfl, rfl, ?_⟩
  intro h
  rw [show perFileConfig c1Config fooFile = Except.error attributeErrorMsg
    from rfl] at h
  exact absurd h (by simp)

/-- C1 witness: with non-empty exact settings, the exact key wins even
though a matching glob key is declared first. -/
theorem C1_witness :
    perFileConfig c1wConfig fooFile = Except.ok [("a", "b")] :=
  C1_exact_match_wins_when_nonempty c1wConfig fooFile [("a", "b")]
    (by decide) (by decide)

/-- C2: the glob semantics the claim states are exactly those of
`File.match`'s matching algorithm (its body applied to the declared
string parameter, as the repo's own `config_test.test_input_file`
expects): `path/to/*.csv` matches `path/to/foo.csv` and neither
`foo.csv` nor `other/foo.csv`; `foo*.csv` matches both `foo1.csv` and
`foo.csv`.  But resolution never returns the first declared matching
key: at the failing input (`c2Config`, `path/to/foo.csv`) the key
search — and with it per-file resolution — raises `AttributeError`,
because `_find_first_matching_config_key` passes each pattern to
`File.match` wrapped in a one-element list. -/
theorem C2_match_semantics_and_crash :
    fooInSubdir.matchPattern "path/to/*.csv" = true ∧
    fooFile.matchPattern "path/to/*.csv" = false ∧
    otherFooFile.matchPattern "path/to/*.csv" = false ∧
    foo1File.matchPattern "foo*.csv" = true ∧
    fooFile.matchPattern "foo*.csv" = true ∧
    findFirstMatchingConfigKey c2Config fooInSubdir =
      Except.error attributeErrorMsg ∧
    perFileConfig c2Config fooInSubdir = Except.error attributeErrorMsg :=
  ⟨by decide, by decide, by decide, by decide, by decide, rfl, rfl⟩

/-- C3: the hierarchy-generation step performs nothing when running in
main-DC mode and when hierarchy generation is disabled; but when the set
of statistical-variable triples read from the store is empty it only
logs the skip and then still generates and inserts SVG triples — the
`return` is missing, contradicting the claim's (and the log message's)
third case. -/
theorem C3_svg_hierarchy_skips :
    (∀ (gen : Bool) (sv : List Triple) (hv : Bool),
        generateSvgHierarchy RunMode.MAIN_DC gen sv hv = []) ∧
    (∀ (m : RunMode) (sv : List Triple) (hv : Bool),
        generateSvgHierarchy m false sv hv = []) ∧
    generateSvgHierarchy RunMode.CUSTOM_DC true [] false =
      [SvgStep.selectSvTriples, SvgStep.logSkipNoTriples,
       SvgStep.generateHierarchy, SvgStep.insertSvgTriples] := by
  refine ⟨fun gen sv hv => by simp [generateSvgHierarchy],
    fun m sv hv => by cases m <;> simp [generateSvgHierarchy], by decide⟩

/-- C4 (amended): for every MCF input whose buffered records all carry
values within the maximum length, if some buffered record's subject
local id was never mapped to a dcid by a `dcid` record in pass 1, triple
conversion fails with the id-resolution error naming the first such
subject; and whenever conversion succeeds, every produced triple's
subject is the dcid the id→dcid map assigns to the corresponding
buffered record's subject.  (The length proviso is forced by
`C4_counterexample`: the per-record length check runs before id
resolution, so an over-long value fails with the length error even when
a subject is unmapped.) -/
theorem C4_id_resolution (rows : List ParserRow) :
    (∀ r : ParserRow,
      (∀ x ∈ bufferedRows rows, x.value.length ≤ MAX_CHARS) →
      (bufferedRows rows).find?
          (fun x => (lookupDcid (dcidAssignments rows) x.subjectId).isNone) =
        some r →
      mcfToTriples rows = Except.error (dcidErrorMsg r.subjectId)) ∧
    (∀ ts : List Triple, mcfToTriples rows = Except.ok ts →
      List.Forall₂ (fun (x : ParserRow) (t : Triple) =>
        lookupDcid (dcidAssignments rows) x.subjectId = some t.subject_id)
        (bufferedRows rows) ts) := by
  constructor
  · intro r hlen hfind
    exact mapToTriples_error_of_unmapped _ _ r hlen hfind
  · intro ts h
    exact mapToTriples_ok_forall₂ _ _ ts h

/-- C4 counterexample: a single buffered record whose subject `n2` was
never assigned a dcid, but whose value is over-long: conversion fails
with the length error, which is not the id-resolution error naming
`n2`. -/
theorem C4_counterexample :
    bufferedRows [c4Row] = [c4Row] ∧
    lookupDcid (dcidAssignments [c4Row]) c4Row.subjectId = none ∧
    mcfToTriples [c4Row] =
      Except.error (tooLongMsg c4Row.predicate c4Row.subjectId
        c4Row.value.length) ∧
    tooLongMsg c4Row.predicate c4Row.subjectId c4Row.value.length ≠
      dcidErrorMsg c4Row.subjectId := by
  have hl : c4Row.value.length = 65536 := longValue_length
  refine ⟨rfl, rfl, ?_, ?_⟩
  · have ht := toTriple_error_length c4Row (dcidAssignments [c4Row])
      (by rw [hl]; decide)
    show mapToTriples (bufferedRows [c4Row]) (dcidAssignments [c4Row]) = _
    rw [show bufferedRows [c4Row] = [c4Row] from rfl]
    conv_lhs => rw [mapToTriples]
    rw [ht]
  · intro hcontra
    exact absurd (congrArg (fun s => s.data.head?) hcontra) (by decide)

/-- C4 witness: node `n1` gets dcid `dc1`, node `n2` none; the buffered
record for `n2` is within the length bound and conversion fails with the
id-resolution error naming `n2`. -/
theorem C4_witness : mcfToTriples c4wRows = Except.error (dcidErrorMsg "n2") :=
  (C4_id_resolution c4wRows).1
    { subjectId := "n2", predicate := "q", value := "v", valueType := "" }
    (by decide) (by decide)

/-- C5: for every MCF record whose value exceeds `_MAX_CHARS` (65535),
triple construction fails with the error naming the predicate and the
subject node; and no produced triple carries an over-long value. -/
theorem C5_max_value_length (row : ParserRow) (m : List (String × String)) :
    (row.value.length > MAX_CHARS →
      toTriple row m =
        Except.error (tooLongMsg row.predicate row.subjectId row.value.length)) ∧
    (∀ t : Triple, toTriple row m = Except.ok t →
      row.value.length ≤ MAX_CHARS ∧
      (∀ w, t.object_id = some w → w.length ≤ MAX_CHARS) ∧
      (∀ w, t.object_value = some w → w.length ≤ MAX_CHARS)) := by
  constructor
  · exact toTriple_error_length row m
  · intro t ht
    obtain ⟨hlen, -, hID, hnotID⟩ := toTriple_ok_inv row m t ht
    refine ⟨hlen, ?_, ?_⟩ <;> intro w hw
    · cases hvt : row.valueType == "ID" with
      | false => rw [(hnotID hvt).1] at hw; exact absurd hw (by simp)
      | true =>
        rw [(hID hvt).1] at hw
        rw [← Option.some_inj.mp hw]
        exact hlen
    · cases hvt : row.valueType == "ID" with
      | false =>
        rw [(hnotID hvt).2] at hw
        rw [← Option.some_inj.mp hw]
        exact hlen
      | true => rw [(hID hvt).2] at hw; exact absurd hw (by simp)

/-- C5 witness: the over-long record `c5Row` fails with the length error
naming property `p` and node `node1`. -/
theorem C5_witness :
    toTriple c5Row [] = Except.error (tooLongMsg "p" "node1" 65536) := by
  have hl : c5Row.value.length = 65536 := longValue_length
  have h := (C5_max_value_length c5Row []).1 (by rw [hl]; decide)
  rw [hl] at h
  exact h

/-- C6: every triple the MCF importer produces has exactly one of
`object_id`/`object_value` set — never both, never neither — and
`object_id` is set if and only if the record's declared value type is
the identifier marker `ID`. -/
theorem C6_exactly_one_object (row : ParserRow) (m : List (String × String))
    (t : Triple) (h : toTriple row m = Except.ok t) :
    (t.object_id.isSome ↔ (row.valueType == "ID") = true) ∧
    ((t.object_id.isSome ∧ t.object_value = none) ∨
     (t.object_id = none ∧ t.object_value.isSome)) := by
  obtain ⟨-, -, hID, hnotID⟩ := toTriple_ok_inv row m t h
  cases hvt : row.valueType == "ID" with
  | false =>
    obtain ⟨h1, h2⟩ := hnotID hvt
    simp [h1, h2, hvt]
  | true =>
    obtain ⟨h1, h2⟩ := hID hvt
    simp [h1, h2, hvt]

/-- C6 witness: the literal-valued record `c6Row` produces `c6Triple`,
which has only `object_value` set. -/
theorem C6_witness :
    (c6Triple.object_id.isSome ↔ (c6Row.valueType == "ID") = true) ∧
    ((c6Triple.object_id.isSome ∧ c6Triple.object_value = none) ∨
     (c6Triple.object_id = none ∧ c6Triple.object_value.isSome)) :=
  C6_exactly_one_object c6Row c6Map c6Triple rfl

/-- C7 (amended): for every input file whose per-file config resolution
completes with settings `pfc` (in particular every file with a
non-empty exact entry, and every file under an empty `inputFiles` map),
the import-type accessor returns OBSERVATIONS when `pfc` has no
`importType` value (absent or the falsy empty string), returns the
matching enum member for the closed set of values, and raises for any
other string — including case-sensitive mismatches such as `eVeNtS`.
(The completion proviso is forced by `C7_counterexample`: a file
resolved through the glob branch makes `_per_file_config` raise
`AttributeError` before the import type is ever examined.) -/
theorem C7_import_type_cases (cfg : Config) (f : FileRef) (pfc : Settings)
    (hres : perFileConfig cfg f = Except.ok pfc) :
    (assocGet pfc "importType" = none →
      Config.importTypeOf cfg f = Except.ok ImportType.OBSERVATIONS) ∧
    (assocGet pfc "importType" = some "" →
      Config.importTypeOf cfg f = Except.ok ImportType.OBSERVATIONS) ∧
    (assocGet pfc "importType" = some "observations" →
      Config.importTypeOf cfg f = Except.ok ImportType.OBSERVATIONS) ∧
    (assocGet pfc "importType" = some "events" →
      Config.importTypeOf cfg f = Except.ok ImportType.EVENTS) ∧
    (assocGet pfc "importType" = some "entities" →
      Config.importTypeOf cfg f = Except.ok ImportType.ENTITIES) ∧
    (∀ s : String, assocGet pfc "importType" = some s →
      s ≠ "" → s ≠ "observations" → s ≠ "events" → s ≠ "entities" →
      Config.importTypeOf cfg f =
        Except.error (unsupportedImportTypeMsg s f.full_path)) := by
  refine ⟨?_, ?_, ?_, ?_, ?_, ?_⟩
  · intro h; simp [Config.importTypeOf, hres, h]
  · intro h; simp [Config.importTypeOf, hres, h]
  · intro h; simp [Config.importTypeOf, hres, h, parseImportType]
  · intro h; simp [Config.importTypeOf, hres, h, parseImportType]
  · intro h; simp [Config.importTypeOf, hres, h, parseImportType]
  · intro s h h1 h2 h3 h4
    simp [Config.importTypeOf, hres, h, parseImportType, h1, h2, h3, h4]

/-- C7 counterexample: `b.csv` has no exact entry in `c7CrashConfig`
(its per-file config carries no `importType` value in the claim's
sense), yet the accessor does not return OBSERVATIONS: resolution
raises `AttributeError` inside the glob search. -/
theorem C7_counterexample :
    assocGet c7CrashConfig.inputFiles bFile.name = none ∧
    Config.importTypeOf c7CrashConfig bFile =
      Except.error attributeErrorMsg ∧
    Config.importTypeOf c7CrashConfig bFile ≠
      Except.ok ImportType.OBSERVATIONS := by
  refine ⟨rfl, rfl, ?_⟩
  intro h
  rw [show Config.importTypeOf c7CrashConfig bFile =
      Except.error attributeErrorMsg from rfl] at h
  exact absurd h (by simp)

/-- C7 witness: the `invalid_import_type.csv` file resolves through its
non-empty exact entry, and the unrecognized, case-sensitively
mismatched value `eVeNtS` raises the unsupported-import-type error. -/
theorem C7_witness :
    Config.importTypeOf c7Config invalidImportTypeFile =
      Except.error
        (unsupportedImportTypeMsg "eVeNtS" invalidImportTypeFile.full_path) :=
  (C7_import_type_cases c7Config invalidImportTypeFile
      [("importType", "eVeNtS")] rfl).2.2.2.2.2 "eVeNtS"
    (by decide) (by decide) (by decide) (by decide) (by decide)

/-- C8: on every control path of `McfImporter.do_import`, "started" is
reported before the input file is read; exactly one of "success" and
"failure" is reported; and on an exception the failure (with the
exception's message) is the last reported event while the exception
propagates to the caller. -/
theorem C8_do_import_reporting (isMainDc : Bool) (rows : List ParserRow) :
    (∃ rest, (doImport isMainDc rows).1 =
        ImportEvent.reportStarted :: ImportEvent.readInput :: rest) ∧
    (doImport isMainDc rows).1.countP isTerminalReport = 1 ∧
    (∀ e, (doImport isMainDc rows).2 = Except.error e →
      (doImport isMainDc rows).1.getLast? =
        some (ImportEvent.reportFailure e)) ∧
    ((doImport isMainDc rows).2 = Except.ok () →
      (doImport isMainDc rows).1.getLast? = some ImportEvent.reportSuccess) := by
  cases isMainDc with
  | true =>
    refine ⟨⟨_, rfl⟩, rfl, ?_, fun _ => rfl⟩
    intro e he
    exact absurd he (by simp [doImport])
  | false =>
    cases h : mcfToTriples rows with
    | ok ts =>
      have hd : doImport false rows =
          ([ImportEvent.reportStarted, ImportEvent.readInput,
            ImportEvent.insertTriples ts.length, ImportEvent.reportSuccess],
           Except.ok ()) := by simp [doImport, h]
      rw [hd]
      refine ⟨⟨_, rfl⟩, rfl, ?_, fun _ => rfl⟩
      intro e he
      exact absurd he (by simp)
    | error e =>
      have hd : doImport false rows =
          ([ImportEvent.reportStarted, ImportEvent.readInput,
            ImportEvent.reportFailure e], Except.error e) := by
        simp [doImport, h]
      rw [hd]
      refine ⟨⟨_, rfl⟩, rfl, ?_, ?_⟩
      · intro e' he'
        injection he' with h''
        subst h''
        rfl
      · intro hok
        exact absurd hok (by simp)

/-- C8 witness: a conversion failure (no dcid for `n9`) is reported as
the final event with the exception's message. -/
theorem C8_witness :
    (doImport false c8FailRows).1.getLast? =
      some (ImportEvent.reportFailure (dcidErrorMsg "n9")) :=
  (C8_do_import_reporting false c8FailRows).2.2.1 (dcidErrorMsg "n9") rfl

/-- C9: the orchestrator never reaches the sort, the started report or
any import on a non-empty enumeration: classifying the first input file
via `match(["*.csv"])` raises `AttributeError` (the list argument has no
`startswith`), so nothing is reported and nothing is imported — the
claimed deterministic ordered run never happens.  Only the empty
enumeration completes, reporting started with the empty file list and
performing no imports. -/
theorem C9_run_crashes :
    runAllDataImports [] = ([RunEvent.reportRunStarted []], Except.ok ()) ∧
    ∀ (f : FileRef) (rest : List FileRef),
      runAllDataImports (f :: rest) = ([], Except.error attributeErrorMsg) := by
  refine ⟨?_, fun f rest => ?_⟩
  · simp [runAllDataImports, classifyLoop]
  · simp [runAllDataImports, classifyLoop, matchPatterns]

/-- C10 (amended): for every file whose base name appears as an exact
key with an empty settings object, resolution does not stop at the
exact key: it proceeds to the glob-pattern search over the declared
keys — but since the exact key itself is declared, the key set is
non-empty and the search raises `AttributeError` at its first
`match([pattern])` call, so neither a matching glob key's settings nor
the empty default is returned; exact-key precedence is effective only
when the exact entry's settings are non-empty.  (The raise replaces the
claim's "settings of a matching glob key (or the empty default)", as
forced by `C10_counterexample`.) -/
theorem C10_empty_exact_crashes (cfg : Config) (f : FileRef)
    (hlook : assocGet cfg.inputFiles f.name = some []) :
    perFileConfig cfg f = Except.error attributeErrorMsg := by
  have hne : cfg.inputFiles ≠ [] := by
    intro hnil
    rw [hnil] at hlook
    simp [assocGet] at hlook
  simp [perFileConfig, hlook, findFirstMatchingConfigKey_error cfg f hne]

/-- C10 counterexample: in `c10Config` the exact entry for `foo.csv` is
empty and resolution reaches the glob search, but the result is the
`AttributeError` — not the matching glob key's settings `[("x","y")]`
and not the empty default. -/
theorem C10_counterexample :
    assocGet c10Config.inputFiles fooFile.name = some [] ∧
    perFileConfig c10Config fooFile = Except.error attributeErrorMsg ∧
    perFileConfig c10Config fooFile ≠ Except.ok [("x", "y")] ∧
    perFileConfig c10Config fooFile ≠ Except.ok [] := by
  refine ⟨rfl, rfl, ?_, ?_⟩
  · intro h
    rw [show perFileConfig c10Config fooFile = Except.error attributeErrorMsg
      from rfl] at h
    exact absurd h (by simp)
  · intro h
    rw [show perFileConfig c10Config fooFile = Except.error attributeErrorMsg
      from rfl] at h
    exact absurd h (by simp)

/-- C10 witness: the empty exact entry of `c10Config` sends `foo.csv`
into the glob search, which raises. -/
theorem C10_witness :
    perFileConfig c10Config fooFile = Except.error attributeErrorMsg :=
  C10_empty_exact_crashes c10Config fooFile (by decide)

end DCImport
